import Mathlib

/-!
Shallow embedding of the subscription reconciliation engine of the
caffeine-tracker backend (the subscription route file).  The embedded
functions mirror, line for line, the route handlers for
GET /status, POST /cancel, POST /reactivate and POST /webhook, the helper
`timestampToISOString`, and the period-end fallback computation that the
handlers inline.  JavaScript truthiness on the optional numeric and string
fields is modelled explicitly (`0`, `""`, `null` and `undefined` are falsy).
-/

namespace CaffeineTracker

/-- Left-pad the decimal rendering of `n` with zeros to width `w`
(models the fixed-width fields of `Date.prototype.toISOString`). -/
def pad (w : Nat) (n : Nat) : String :=
  let s := toString n
  String.mk (List.replicate (w - s.length) '0') ++ s

/-- Proleptic-Gregorian date of a day count relative to 1970-01-01
(the civil-from-days algorithm; floor division throughout, matching the
ECMAScript date computation).  Returns (year, month, day). -/
def civilFromDays (days : Int) : Int × Nat × Nat :=
  let z := days + 719468
  let era := z.fdiv 146097
  let doe := (z - era * 146097).toNat
  let yoe := (doe - doe / 1460 + doe / 36524 - doe / 146096) / 365
  let doy := doe - (365 * yoe + yoe / 4 - yoe / 100)
  let mp := (5 * doy + 2) / 153
  let d := doy - (153 * mp + 2) / 5 + 1
  let m := if mp < 10 then mp + 3 else mp - 9
  let y := (yoe : Int) + era * 400
  (if m ≤ 2 then y + 1 else y, m, d)

/-- The ECMAScript time-value range: `new Date(ms)` is an Invalid Date
(its `getTime()` is NaN) exactly when |ms| exceeds 8.64e15. -/
def dateInvalid (ms : Int) : Bool := ms.natAbs > 8640000000000000

/-- Rendering of a valid millisecond time value by
`Date.prototype.toISOString`: `YYYY-MM-DDTHH:mm:ss.sssZ`, with the
expanded-year form `±YYYYYY` outside 0000–9999. -/
def isoOfMillis (ms : Int) : String :=
  let days := ms.fdiv 86400000
  let msod := (ms.fmod 86400000).toNat
  let ymd := civilFromDays days
  let hh := msod / 3600000
  let mi := msod % 3600000 / 60000
  let ss := msod % 60000 / 1000
  let mmm := msod % 1000
  let yearStr :=
    if 0 ≤ ymd.1 ∧ ymd.1 ≤ 9999 then pad 4 ymd.1.toNat
    else (if ymd.1 < 0 then "-" else "+") ++ pad 6 ymd.1.natAbs
  yearStr ++ "-" ++ pad 2 ymd.2.1 ++ "-" ++ pad 2 ymd.2.2 ++ "T" ++
    pad 2 hh ++ ":" ++ pad 2 mi ++ ":" ++ pad 2 ss ++ "." ++ pad 3 mmm ++ "Z"

/-- The JavaScript values the helper `timestampToISOString` can receive:
`null`, `undefined`, `NaN`, a (non-NaN) number, or a non-number value
(modelled by its string). -/
inductive JSVal where
  | null
  | undef
  | nan
  | num (n : Int)
  | nonNum (s : String)
deriving DecidableEq, Repr

/-- JavaScript falsiness of a `JSVal` (`!timestamp` in the source). -/
def jsFalsy : JSVal → Bool
  | .null => true
  | .undef => true
  | .nan => true
  | .num n => n == 0
  | .nonNum s => s == ""

/-- The check `typeof timestamp !== 'number'` of the source. -/
def jsNotNumber : JSVal → Bool
  | .num _ => false
  | .nan => false
  | _ => true

/-- The check `isNaN(timestamp)` of the source, on the values that reach it. -/
def jsIsNaN : JSVal → Bool
  | .nan => true
  | _ => false

/-- The guard of `timestampToISOString`:
`!timestamp || typeof timestamp !== 'number' || isNaN(timestamp)`. -/
def invalidTimestampInput (t : JSVal) : Bool :=
  jsFalsy t || jsNotNumber t || jsIsNaN t

/-- `Date.prototype.toISOString` as the source calls it: throws a RangeError
(the `Except.error` branch) on an Invalid Date, otherwise returns the ISO
rendering. -/
def toISOStringExc (ms : Int) : Except String String :=
  if dateInvalid ms then Except.error "RangeError: Invalid time value"
  else Except.ok (isoOfMillis ms)

/-- The `try` block of `timestampToISOString` for a number input `n`:
builds `new Date(n * 1000)`, returns `none` when `isNaN(date.getTime())`,
otherwise calls `toISOString`.  An `Except.error` result would be caught by
the surrounding `catch`. -/
def timestampTryBlock (n : Int) : Except String (Option String) :=
  let ms := n * 1000
  if dateInvalid ms then Except.ok none
  else (toISOStringExc ms).map some

/-- The helper `timestampToISOString` of the subscription route file:
validates the input, converts epoch seconds to an ISO-8601 string, and
returns `none` (the JavaScript `null`) on any invalid input; the
`try`/`catch` turns any thrown error into `none`. -/
def timestampToISOString (t : JSVal) : Option String :=
  if invalidTimestampInput t then none
  else
    match t with
    | .num n =>
      match timestampTryBlock n with
      | .ok r => r
      | .error _ => none
    | _ => none

/-- JavaScript truthiness of an optional number field
(`undefined`, `null` and `0` are falsy). -/
def optNumFalsy : Option Int → Bool
  | none => true
  | some n => n == 0

/-- JavaScript truthiness of an optional string field
(`undefined`, `null` and `""` are falsy). -/
def optStrFalsy : Option String → Bool
  | none => true
  | some s => s == ""

/-- View of an optional epoch-seconds field as the `JSVal` passed to
`timestampToISOString` (`none` is `undefined`). -/
def optToJS : Option Int → JSVal
  | none => JSVal.undef
  | some n => JSVal.num n

/-- A row of the `user_profiles` table, restricted to the columns the
subscription routes read and write. -/
structure Profile where
  id : String
  stripe_customer_id : Option String
  subscription_id : Option String
  subscription_status : Option String
  subscription_expires_at : Option String
deriving DecidableEq, Repr

/-- The `user_profiles` table. -/
abbrev Store := List Profile

/-- The query `select(...).eq('id', uid).single()`. -/
def findById (db : Store) (uid : String) : Option Profile :=
  db.find? (fun p => p.id == uid)

/-- The statement `update(fields).eq('id', uid)`: applies `f` to every row
whose `id` is `uid`. -/
def updateById (db : Store) (uid : String) (f : Profile → Profile) : Store :=
  db.map (fun p => if p.id == uid then f p else p)

/-- The statement `update(fields).eq('stripe_customer_id', cid)`: applies
`f` to every row whose `stripe_customer_id` is `cid`. -/
def updateByCustomer (db : Store) (cid : String) (f : Profile → Profile) : Store :=
  db.map (fun p => if p.stripe_customer_id == some cid then f p else p)

/-- The fields of a Stripe subscription object that the route handlers
read (a provider snapshot).  The optional epoch fields may be absent or
carry any number, `0` included. -/
structure Subscription where
  id : String
  status : String
  cancel_at_period_end : Bool
  current_period_end : Option Int
  billing_cycle_anchor : Option Int
deriving DecidableEq, Repr

/-- The period-end fallback the handlers inline:
`let periodEnd = sub.current_period_end;
 if (!periodEnd && sub.billing_cycle_anchor)
   periodEnd = sub.billing_cycle_anchor + 30*24*60*60;`. -/
def resolvePeriodEnd (cpe bca : Option Int) : Option Int :=
  if optNumFalsy cpe then
    match bca with
    | some a => if a == 0 then cpe else some (a + 30 * 24 * 60 * 60)
    | none => cpe
  else cpe

/-- The guarded conversion used by the status and cancel handlers:
`periodEnd ? timestampToISOString(periodEnd) : null`. -/
def resolveExpiresAt (cpe bca : Option Int) : Option String :=
  let periodEnd := resolvePeriodEnd cpe bca
  if optNumFalsy periodEnd then none
  else timestampToISOString (optToJS periodEnd)

/-- The unguarded conversion used by the webhook updated branch:
`timestampToISOString(updatedPeriodEnd)`. -/
def webhookExpiresAt (cpe bca : Option Int) : Option String :=
  timestampToISOString (optToJS (resolvePeriodEnd cpe bca))

/-- The JSON bodies the subscription route handlers can answer with. -/
inductive ApiResp where
  | inactiveStatus
  | statusOk (status : String) (current_period_end : Option Int)
      (cancel_at_period_end : Bool) (expires_at : Option String) (will_renew : Bool)
  | cancelOk (cancel_at_period_end : Bool) (current_period_end : Option Int)
      (access_until : Option String) (status : String)
  | reactivateOk (status : String) (will_renew : Bool)
  | notFoundErr (msg : String)
  | received
  | webhookErr
deriving DecidableEq, Repr

/-- Observable outcome of one handler run: the table afterwards, whether an
`update` statement was executed against the table, whether a Stripe API
call was issued, and the response sent. -/
structure RouteResult where
  db : Store
  wrote : Bool
  providerCalled : Bool
  resp : ApiResp
deriving DecidableEq, Repr

/-- The canonical status a response of the subscription routes reports. -/
def respStatusOf : ApiResp → Option String
  | .inactiveStatus => some "inactive"
  | .statusOk s _ _ _ _ => some s
  | .cancelOk _ _ _ s => some s
  | .reactivateOk s _ => some s
  | _ => none

/-- GET /status.  `sub` is the snapshot `stripe.subscriptions.retrieve`
would return; it is consulted only when the stored row carries a
subscription id. -/
def getStatusHandler (db : Store) (uid : String) (sub : Subscription) : RouteResult :=
  match findById db uid with
  | none =>
    { db := db, wrote := false, providerCalled := false, resp := ApiResp.inactiveStatus }
  | some profile =>
    if optStrFalsy profile.subscription_id then
      { db := db, wrote := false, providerCalled := false, resp := ApiResp.inactiveStatus }
    else if sub.status == "active" then
      let periodEnd := resolvePeriodEnd sub.current_period_end sub.billing_cycle_anchor
      let expiresAt := if optNumFalsy periodEnd then none
        else timestampToISOString (optToJS periodEnd)
      let status := if sub.cancel_at_period_end then "active_until_period_end" else "active"
      let includeExpires :=
        !optStrFalsy expiresAt && expiresAt != profile.subscription_expires_at
      let wrote := includeExpires || some status != profile.subscription_status
      let db2 := if wrote then
          updateById db uid (fun p =>
            { p with subscription_status := some status,
                     subscription_expires_at :=
                       if includeExpires then expiresAt else p.subscription_expires_at })
        else db
      { db := db2, wrote := wrote, providerCalled := true,
        resp := ApiResp.statusOk status periodEnd sub.cancel_at_period_end expiresAt
          (!sub.cancel_at_period_end) }
    else
      { db := updateById db uid (fun p =>
          { p with subscription_status := some "inactive",
                   subscription_id := none,
                   subscription_expires_at := none }),
        wrote := true, providerCalled := true, resp := ApiResp.inactiveStatus }

/-- POST /cancel.  `sub` is the snapshot `stripe.subscriptions.update(id,
{cancel_at_period_end: true})` would return; the update call is issued only
past the not-found check. -/
def cancelHandler (db : Store) (uid : String) (sub : Subscription) : RouteResult :=
  let profile := findById db uid
  if optStrFalsy (profile.bind (fun p => p.subscription_id)) then
    { db := db, wrote := false, providerCalled := false,
      resp := ApiResp.notFoundErr "No active subscription found" }
  else
    let db2 := updateById db uid (fun p =>
      { p with subscription_status := some "active_until_period_end" })
    let periodEnd := resolvePeriodEnd sub.current_period_end sub.billing_cycle_anchor
    let periodEndDate := if optNumFalsy periodEnd then none
      else timestampToISOString (optToJS periodEnd)
    { db := db2, wrote := true, providerCalled := true,
      resp := ApiResp.cancelOk true periodEnd periodEndDate "active_until_period_end" }

/-- POST /reactivate.  The snapshot returned by
`stripe.subscriptions.update(id, {cancel_at_period_end: false})` is not
read by the handler. -/
def reactivateHandler (db : Store) (uid : String) : RouteResult :=
  let profile := findById db uid
  if optStrFalsy (profile.bind (fun p => p.subscription_id)) then
    { db := db, wrote := false, providerCalled := false,
      resp := ApiResp.notFoundErr "No subscription found" }
  else
    { db := updateById db uid (fun p => { p with subscription_status := some "active" }),
      wrote := true, providerCalled := true,
      resp := ApiResp.reactivateOk "active" true }

/-- A verified webhook event, with the fields the handler reads from
`event.data.object`. -/
inductive StripeEvent where
  | subscriptionDeleted (customer : String)
  | subscriptionUpdated (customer : String) (status : String)
      (cancel_at_period_end : Bool) (current_period_end : Option Int)
      (billing_cycle_anchor : Option Int)
  | otherEvent
deriving DecidableEq, Repr

/-- The row transform of the `customer.subscription.deleted` case. -/
def deletedFields (p : Profile) : Profile :=
  { p with subscription_status := some "cancelled",
           subscription_id := none,
           subscription_expires_at := none }

/-- POST /webhook.  `sigResult` models `stripe.webhooks.constructEvent`:
`Except.error` is a thrown signature-verification failure, caught by the
handler's `catch`, which answers 400 before any event field is read. -/
def webhookHandler (db : Store) (sigResult : Except String StripeEvent) : RouteResult :=
  match sigResult with
  | Except.error _ =>
    { db := db, wrote := false, providerCalled := false, resp := ApiResp.webhookErr }
  | Except.ok ev =>
    match ev with
    | StripeEvent.subscriptionDeleted c =>
      { db := updateByCustomer db c deletedFields,
        wrote := true, providerCalled := false, resp := ApiResp.received }
    | StripeEvent.subscriptionUpdated c st cape cpe bca =>
      if st == "active" then
        let updatedExpiresAt := timestampToISOString (optToJS (resolvePeriodEnd cpe bca))
        let status := if cape then "active_until_period_end" else "active"
        { db := updateByCustomer db c (fun p =>
            { p with subscription_status := some status,
                     subscription_expires_at :=
                       if optStrFalsy updatedExpiresAt then p.subscription_expires_at
                       else updatedExpiresAt }),
          wrote := true, providerCalled := false, resp := ApiResp.received }
      else
        { db := db, wrote := false, providerCalled := false, resp := ApiResp.received }
    | StripeEvent.otherEvent =>
      { db := db, wrote := false, providerCalled := false, resp := ApiResp.received }

/-! Helper lemmas on the store operations. -/

/-- Looking a row up after an id-keyed update finds the transformed row,
provided the transform keeps the id column. -/
theorem findById_updateById (db : Store) (uid : String) (f : Profile → Profile)
    (hid : ∀ q, (f q).id = q.id) (p : Profile) (h : findById db uid = some p) :
    findById (updateById db uid f) uid = some (f p) := by
  induction db with
  | nil => simp [findById] at h
  | cons q rest ih =>
    by_cases hq : q.id == uid
    · simp [findById, List.find?, hq] at h
      subst h
      simp [findById, updateById, List.find?, hq, hid]
    · simp [findById, List.find?, hq] at h ⊢
      simpa [findById, updateById, List.find?, hq, hid] using ih h

/-- A customer-keyed update is idempotent when the row transform is
idempotent and keeps the customer column. -/
theorem updateByCustomer_idem (db : Store) (cid : String) (f : Profile → Profile)
    (hc : ∀ q, (f q).stripe_customer_id = q.stripe_customer_id)
    (hf : ∀ q, f (f q) = f q) :
    updateByCustomer (updateByCustomer db cid f) cid f = updateByCustomer db cid f := by
  unfold updateByCustomer
  rw [List.map_map]
  refine List.map_congr_left ?_
  intro p _
  by_cases hp : p.stripe_customer_id == some cid
  · simp [Function.comp, hp, hc, hf]
  · simp [Function.comp, hp]

/-- Every row of a customer-keyed update is either an untouched row of the
original table or the transform of a matching row. -/
theorem mem_updateByCustomer (db : Store) (cid : String) (f : Profile → Profile)
    (q : Profile) (hq : q ∈ updateByCustomer db cid f) :
    ∃ p ∈ db, q = if p.stripe_customer_id == some cid then f p else p := by
  rcases List.mem_map.mp hq with ⟨p, hp, rfl⟩
  exact ⟨p, hp, rfl⟩

/-! Concrete fixtures used by witnesses and counterexamples. -/

/-- A stored profile with an active subscription. -/
def profATest : Profile :=
  { id := "u1", stripe_customer_id := some "cus_1", subscription_id := some "sub_1",
    subscription_status := some "active", subscription_expires_at := none }

/-- A stored profile on which a cancellation is already recorded, with the
expiry the resolver would recompute. -/
def profCTest : Profile :=
  { id := "u1", stripe_customer_id := some "cus_1", subscription_id := some "sub_1",
    subscription_status := some "active_until_period_end",
    subscription_expires_at := some "2023-11-14T22:13:20.000Z" }

/-- An active snapshot with a scheduled cancellation and a populated
period end. -/
def subCTest : Subscription :=
  { id := "sub_1", status := "active", cancel_at_period_end := true,
    current_period_end := some 1700000000, billing_cycle_anchor := none }

/-- An `customer.subscription.updated` event with active status. -/
def evUTest : StripeEvent :=
  StripeEvent.subscriptionUpdated "cus_1" "active" false (some 1700000000) none

/-- C1 — counterexample.  On a concrete store and a concrete
`customer.subscription.updated` event, the second application of the
webhook reconciliation still executes an `update` statement: the claim
that the second application performs no write is false. -/
theorem reconcileFromEvent_rewrite_cex :
    (webhookHandler (webhookHandler [profATest] (Except.ok evUTest)).db
        (Except.ok evUTest)).wrote = true := rfl

/-- C1 — amended.  Reconciling the same webhook event twice stores an
identical state: the table after the second application equals the table
after the first (the second write, which does occur, changes nothing). -/
theorem reconcileFromEvent_db_idempotent (db : Store) (ev : StripeEvent) :
    (webhookHandler (webhookHandler db (Except.ok ev)).db (Except.ok ev)).db =
      (webhookHandler db (Except.ok ev)).db := by
  cases ev with
  | subscriptionDeleted c =>
    simp only [webhookHandler]
    exact updateByCustomer_idem db c deletedFields (fun q => rfl) (fun q => rfl)
  | subscriptionUpdated c st cape cpe bca =>
    by_cases hst : st == "active"
    · simp only [webhookHandler, hst, if_pos]
      refine updateByCustomer_idem db c _ (fun q => rfl) (fun q => ?_)
      by_cases hea : optStrFalsy (timestampToISOString (optToJS (resolvePeriodEnd cpe bca)))
      · simp [hea]
      · simp [hea]
    · simp [webhookHandler, hst]
  | otherEvent => rfl

/-- C8.  When signature verification throws, the webhook handler answers
the 400 error response and the store is untouched: no event field is ever
read, no update statement runs. -/
theorem webhook_sig_failure_no_mutation (db : Store) (e : String) :
    (webhookHandler db (Except.error e)).db = db ∧
    (webhookHandler db (Except.error e)).wrote = false ∧
    (webhookHandler db (Except.error e)).resp = ApiResp.webhookErr := by
  exact ⟨rfl, rfl, rfl⟩

/-- C9.  When the stored record carries no subscription id, both the cancel
and the reactivate handlers answer their not-found error, issue no Stripe
call, and leave the store untouched. -/
theorem notfound_no_mutation (db : Store) (uid : String) (sub : Subscription)
    (h : optStrFalsy ((findById db uid).bind (fun p => p.subscription_id)) = true) :
    (cancelHandler db uid sub).db = db ∧
    (cancelHandler db uid sub).wrote = false ∧
    (cancelHandler db uid sub).providerCalled = false ∧
    (cancelHandler db uid sub).resp = ApiResp.notFoundErr "No active subscription found" ∧
    (reactivateHandler db uid).db = db ∧
    (reactivateHandler db uid).wrote = false ∧
    (reactivateHandler db uid).providerCalled = false ∧
    (reactivateHandler db uid).resp = ApiResp.notFoundErr "No subscription found" := by
  simp [cancelHandler, reactivateHandler, h]

/-- A stored profile that never touched billing: every nullable column null. -/
def profNTest : Profile :=
  { id := "u1", stripe_customer_id := none, subscription_id := none,
    subscription_status := none, subscription_expires_at := none }

/-- C9 — witness: a store whose only row has `subscription_id = null`. -/
theorem notfound_no_mutation_witness :
    (cancelHandler [profNTest] "u1" subCTest).db = [profNTest] ∧
    (cancelHandler [profNTest] "u1" subCTest).wrote = false ∧
    (cancelHandler [profNTest] "u1" subCTest).providerCalled = false ∧
    (cancelHandler [profNTest] "u1" subCTest).resp =
      ApiResp.notFoundErr "No active subscription found" ∧
    (reactivateHandler [profNTest] "u1").db = [profNTest] ∧
    (reactivateHandler [profNTest] "u1").wrote = false ∧
    (reactivateHandler [profNTest] "u1").providerCalled = false ∧
    (reactivateHandler [profNTest] "u1").resp =
      ApiResp.notFoundErr "No subscription found" :=
  notfound_no_mutation [profNTest] "u1" subCTest (by decide)

/-- C3 — counterexample.  A present `current_period_end` of `0` is not used
as the authoritative period end: the anchor fallback fires instead, because
the source tests the field with JavaScript truthiness (`!periodEnd`). -/
theorem periodEnd_zero_not_authoritative_cex :
    resolvePeriodEnd (some 0) (some 1000) = some 2593000 ∧
    resolvePeriodEnd (some 0) (some 1000) ≠ some 0 := by decide

/-- C3 — amended.  A present nonzero `current_period_end` is authoritative;
otherwise a present nonzero `billing_cycle_anchor = T` resolves to
`T + 2,592,000` seconds; when both fields are absent-or-zero the epoch is
left as it was (absent or zero) and the resolved `expires_at` is absent. -/
theorem periodEnd_resolver_characterization (cpe bca : Option Int) :
    (∀ n : Int, n ≠ 0 → cpe = some n → resolvePeriodEnd cpe bca = some n) ∧
    (∀ t : Int, t ≠ 0 → optNumFalsy cpe = true → bca = some t →
      resolvePeriodEnd cpe bca = some (t + 2592000)) ∧
    (optNumFalsy cpe = true → optNumFalsy bca = true →
      resolvePeriodEnd cpe bca = cpe ∧ resolveExpiresAt cpe bca = none) := by
  refine ⟨?_, ?_, ?_⟩
  · rintro n hn rfl
    simp [resolvePeriodEnd, optNumFalsy, hn]
  · rintro t ht hcpe rfl
    simp [resolvePeriodEnd, hcpe, ht]
  · intro hcpe hbca
    have hres : resolvePeriodEnd cpe bca = cpe := by
      cases bca with
      | none => simp [resolvePeriodEnd, hcpe]
      | some a =>
        have : a = 0 := by simpa [optNumFalsy] using hbca
        simp [resolvePeriodEnd, hcpe, this]
    refine ⟨hres, ?_⟩
    simp [resolveExpiresAt, hres, hcpe]

/-- C3 — witness for the characterization at concrete inputs: an absent
`current_period_end` with anchor `1000` resolves to `1000 + 2592000`. -/
theorem periodEnd_resolver_witness :
    resolvePeriodEnd none (some 1000) = some (1000 + 2592000) :=
  (periodEnd_resolver_characterization none (some 1000)).2.1 1000 (by decide) rfl rfl

/-- C4.  The status classification of the status-poll handler: an active
snapshot without scheduled cancellation reports `active`, with scheduled
cancellation reports `active_until_period_end`, and any non-active raw
status reports `inactive`. -/
theorem status_classifier_table (db : Store) (uid : String) (sub : Subscription)
    (p : Profile) (hf : findById db uid = some p)
    (hid : optStrFalsy p.subscription_id = false) :
    (sub.status = "active" → sub.cancel_at_period_end = false →
      respStatusOf (getStatusHandler db uid sub).resp = some "active") ∧
    (sub.status = "active" → sub.cancel_at_period_end = true →
      respStatusOf (getStatusHandler db uid sub).resp = some "active_until_period_end") ∧
    (sub.status ≠ "active" →
      respStatusOf (getStatusHandler db uid sub).resp = some "inactive") := by
  unfold getStatusHandler
  rw [hf]
  refine ⟨?_, ?_, ?_⟩
  · intro hact hcape
    simp [hid, hact, hcape, respStatusOf]
  · intro hact hcape
    simp [hid, hact, hcape, respStatusOf]
  · intro hraw
    have hbeq : (sub.status == "active") = false := by
      simpa using hraw
    simp [hid, hbeq, respStatusOf]

/-- C4 — witness: an active snapshot with `cancel_at_period_end = true`
reports `active_until_period_end` on a concrete store. -/
theorem status_classifier_witness :
    (subCTest.status = "active" → subCTest.cancel_at_period_end = false →
      respStatusOf (getStatusHandler [profCTest] "u1" subCTest).resp = some "active") ∧
    (subCTest.status = "active" → subCTest.cancel_at_period_end = true →
      respStatusOf (getStatusHandler [profCTest] "u1" subCTest).resp =
        some "active_until_period_end") ∧
    (subCTest.status ≠ "active" →
      respStatusOf (getStatusHandler [profCTest] "u1" subCTest).resp = some "inactive") :=
  status_classifier_table [profCTest] "u1" subCTest profCTest rfl rfl

/-- C5.  When the status poll observes a non-active snapshot, the stored
row is downgraded to `inactive` with the subscription id and the expiry
cleared, and the handler reports `inactive`. -/
theorem terminal_clearing (db : Store) (uid : String) (sub : Subscription) (p : Profile)
    (hf : findById db uid = some p) (hid : optStrFalsy p.subscription_id = false)
    (hraw : sub.status ≠ "active") :
    findById (getStatusHandler db uid sub).db uid =
      some { p with subscription_status := some "inactive", subscription_id := none,
                    subscription_expires_at := none } ∧
    (getStatusHandler db uid sub).wrote = true ∧
    (getStatusHandler db uid sub).resp = ApiResp.inactiveStatus := by
  have hbeq : (sub.status == "active") = false := by
    simpa using hraw
  have hdb : (getStatusHandler db uid sub).db = updateById db uid (fun q =>
      { q with subscription_status := some "inactive", subscription_id := none,
               subscription_expires_at := none }) := by
    unfold getStatusHandler
    rw [hf]
    simp [hid, hbeq]
  have hw : (getStatusHandler db uid sub).wrote = true := by
    unfold getStatusHandler
    rw [hf]
    simp [hid, hbeq]
  have hr : (getStatusHandler db uid sub).resp = ApiResp.inactiveStatus := by
    unfold getStatusHandler
    rw [hf]
    simp [hid, hbeq]
  refine ⟨?_, hw, hr⟩
  rw [hdb]
  exact findById_updateById db uid (fun q =>
    { q with subscription_status := some "inactive", subscription_id := none,
             subscription_expires_at := none }) (fun q => rfl) p hf

/-- A lapsed snapshot as the provider reports one. -/
def subPTest : Subscription :=
  { id := "sub_1", status := "past_due", cancel_at_period_end := false,
    current_period_end := some 1700000000, billing_cycle_anchor := none }

/-- C5 — witness: polling a concrete past-due subscription clears the
stored row. -/
theorem terminal_clearing_witness :
    findById (getStatusHandler [profCTest] "u1" subPTest).db "u1" =
      some { profCTest with subscription_status := some "inactive",
                            subscription_id := none,
                            subscription_expires_at := none } ∧
    (getStatusHandler [profCTest] "u1" subPTest).wrote = true ∧
    (getStatusHandler [profCTest] "u1" subPTest).resp = ApiResp.inactiveStatus :=
  terminal_clearing [profCTest] "u1" subPTest profCTest rfl rfl (by decide)

/-- C2 — counterexample.  A cancel request on a concrete store whose row
already holds the computed status (`active_until_period_end`) and the
computed expiry still executes an `update` statement: write-suppression
does not hold on the cancel path. -/
theorem cancel_unconditional_write_cex :
    (cancelHandler [profCTest] "u1" subCTest).wrote = true ∧
    profCTest.subscription_status = some "active_until_period_end" ∧
    resolveExpiresAt subCTest.current_period_end subCTest.billing_cycle_anchor =
      profCTest.subscription_expires_at := ⟨rfl, rfl, rfl⟩

/-- C2 — amended.  Write-suppression holds on the status-poll active path
and only there: the poll writes exactly when the computed status differs
from the stored one or the computed expiry is available and differs, and a
suppressed poll leaves the table untouched; the cancel, reactivate and
webhook-update (active) paths execute their update statement
unconditionally. -/
theorem conditional_write_characterization (db : Store) (uid : String) (sub : Subscription)
    (p : Profile) (hf : findById db uid = some p)
    (hid : optStrFalsy p.subscription_id = false) (hact : sub.status = "active") :
    ((getStatusHandler db uid sub).wrote = false ↔
      (some (if sub.cancel_at_period_end then "active_until_period_end" else "active") =
          p.subscription_status ∧
        (optStrFalsy (resolveExpiresAt sub.current_period_end sub.billing_cycle_anchor) = true ∨
          resolveExpiresAt sub.current_period_end sub.billing_cycle_anchor =
            p.subscription_expires_at))) ∧
    ((getStatusHandler db uid sub).wrote = false → (getStatusHandler db uid sub).db = db) ∧
    (cancelHandler db uid sub).wrote = true ∧
    (reactivateHandler db uid).wrote = true ∧
    (∀ c cape cpe bca, (webhookHandler db (Except.ok
        (StripeEvent.subscriptionUpdated c "active" cape cpe bca))).wrote = true) := by
  have hbeq : (sub.status == "active") = true := by simp [hact]
  have hw : (getStatusHandler db uid sub).wrote =
      ((!optStrFalsy (resolveExpiresAt sub.current_period_end sub.billing_cycle_anchor) &&
        (resolveExpiresAt sub.current_period_end sub.billing_cycle_anchor !=
          p.subscription_expires_at)) ||
       (some (if sub.cancel_at_period_end then "active_until_period_end" else "active") !=
          p.subscription_status)) := by
    unfold getStatusHandler
    rw [hf]
    simp [hid, hbeq, resolveExpiresAt]
  refine ⟨?_, ?_, ?_, ?_, ?_⟩
  · rw [hw]
    simp only [Bool.or_eq_false_iff, Bool.and_eq_false_iff, Bool.not_eq_false',
      bne_eq_false_iff_eq]
    tauto
  · intro h
    unfold getStatusHandler at h ⊢
    rw [hf] at h ⊢
    simp only [hid, hbeq] at h ⊢
    simp only [Bool.false_eq_true, if_false, if_true] at h ⊢
    rw [h]
    simp
  · simp [cancelHandler, hf, hid]
  · simp [reactivateHandler, hf, hid]
  · intro c cape cpe bca
    simp [webhookHandler]

/-- C2 — witness: on the concrete fixture the cancel handler writes even
though nothing changed. -/
theorem conditional_write_witness :
    (cancelHandler [profCTest] "u1" subCTest).wrote = true :=
  (conditional_write_characterization [profCTest] "u1" subCTest profCTest rfl rfl
    rfl).2.2.1

/-- C6.  After a `customer.subscription.deleted` event for customer `c`,
every row of the table mapped to `c` holds `status = cancelled`,
`subscription_id = null` and `subscription_expires_at = null`, whatever it
held before. -/
theorem deletion_event_clears (db : Store) (c : String) (q : Profile)
    (hq : q ∈ (webhookHandler db (Except.ok (StripeEvent.subscriptionDeleted c))).db)
    (hc : q.stripe_customer_id = some c) :
    q.subscription_status = some "cancelled" ∧ q.subscription_id = none ∧
      q.subscription_expires_at = none := by
  simp only [webhookHandler] at hq
  rcases mem_updateByCustomer db c deletedFields q hq with ⟨p, _, hqe⟩
  by_cases hpc : p.stripe_customer_id == some c
  · rw [hqe, if_pos hpc]
    exact ⟨rfl, rfl, rfl⟩
  · rw [hqe, if_neg (by simpa using hpc)] at hc
    exact absurd hc (by simpa using hpc)

/-- C6 — witness: a concrete deletion event on a row with an active
cancellation-scheduled subscription clears it. -/
theorem deletion_event_clears_witness :
    (deletedFields profCTest).subscription_status = some "cancelled" ∧
    (deletedFields profCTest).subscription_id = none ∧
    (deletedFields profCTest).subscription_expires_at = none :=
  deletion_event_clears [profCTest] "cus_1" (deletedFields profCTest) (by decide) rfl

/-- C7.  The timestamp normalizer is total and contained: it returns `none`
on `null`, `undefined`, `NaN`, any non-number, `0`, and any epoch whose
millisecond value falls outside the representable date range; on every
other number it returns the ISO-8601 rendering of the instant; and the
`try` block never lets an error escape (the thrown RangeError branch is
unreachable). -/
theorem timestampToISOString_containment :
    timestampToISOString JSVal.null = none ∧
    timestampToISOString JSVal.undef = none ∧
    timestampToISOString JSVal.nan = none ∧
    (∀ s, timestampToISOString (JSVal.nonNum s) = none) ∧
    timestampToISOString (JSVal.num 0) = none ∧
    (∀ n : Int, dateInvalid (n * 1000) = true →
      timestampToISOString (JSVal.num n) = none) ∧
    (∀ n : Int, n ≠ 0 → dateInvalid (n * 1000) = false →
      timestampToISOString (JSVal.num n) = some (isoOfMillis (n * 1000))) ∧
    (∀ n : Int, ∃ r : Option String, timestampTryBlock n = Except.ok r) := by
  refine ⟨rfl, rfl, rfl, ?_, rfl, ?_, ?_, ?_⟩
  · intro s
    simp [timestampToISOString, invalidTimestampInput, jsFalsy, jsNotNumber, jsIsNaN]
  · intro n hinv
    by_cases hn : n = 0
    · subst hn
      rfl
    · simp [timestampToISOString, invalidTimestampInput, jsFalsy, jsNotNumber, jsIsNaN,
        hn, timestampTryBlock, hinv]
  · intro n hn hval
    simp [timestampToISOString, invalidTimestampInput, jsFalsy, jsNotNumber, jsIsNaN,
      hn, timestampTryBlock, hval, toISOStringExc, Except.map]
  · intro n
    by_cases hval : dateInvalid (n * 1000)
    · exact ⟨none, by simp [timestampTryBlock, hval]⟩
    · exact ⟨some (isoOfMillis (n * 1000)),
        by simp [timestampTryBlock, hval, toISOStringExc, Except.map]⟩

/-- C7 — witness: a concrete valid epoch converts to its ISO instant. -/
theorem timestampToISOString_containment_witness :
    timestampToISOString (JSVal.num 1700000000) = some (isoOfMillis (1700000000 * 1000)) ∧
    isoOfMillis (1700000000 * 1000) = "2023-11-14T22:13:20.000Z" :=
  ⟨timestampToISOString_containment.2.2.2.2.2.2.1 1700000000 (by decide) (by decide), rfl⟩

/-- The canonical status the active branch computes from the snapshot. -/
def computedStatus (sub : Subscription) : String :=
  if sub.cancel_at_period_end then "active_until_period_end" else "active"

/-- Whether the status-poll active branch puts `subscription_expires_at`
into its update payload. -/
def includeExpiresFlag (sub : Subscription) (p : Profile) : Bool :=
  !optStrFalsy (resolveExpiresAt sub.current_period_end sub.billing_cycle_anchor) &&
    (resolveExpiresAt sub.current_period_end sub.billing_cycle_anchor !=
      p.subscription_expires_at)

/-- Whether the status-poll active branch executes its update statement. -/
def statusWriteFlag (sub : Subscription) (p : Profile) : Bool :=
  includeExpiresFlag sub p || (some (computedStatus sub) != p.subscription_status)

/-- The row transform of the status-poll active branch's update. -/
def statusRowUpdate (sub : Subscription) (p : Profile) : Profile → Profile :=
  fun q =>
    { q with subscription_status := some (computedStatus sub),
             subscription_expires_at :=
               if includeExpiresFlag sub p then
                 resolveExpiresAt sub.current_period_end sub.billing_cycle_anchor
               else q.subscription_expires_at }

/-- The status-poll handler on the active branch, written with the named
pieces above. -/
theorem getStatusHandler_active_shape (db : Store) (uid : String) (sub : Subscription)
    (p : Profile) (hf : findById db uid = some p)
    (hid : optStrFalsy p.subscription_id = false)
    (hbeq : (sub.status == "active") = true) :
    getStatusHandler db uid sub =
      { db := if statusWriteFlag sub p then updateById db uid (statusRowUpdate sub p) else db,
        wrote := statusWriteFlag sub p, providerCalled := true,
        resp := ApiResp.statusOk (computedStatus sub)
          (resolvePeriodEnd sub.current_period_end sub.billing_cycle_anchor)
          sub.cancel_at_period_end
          (resolveExpiresAt sub.current_period_end sub.billing_cycle_anchor)
          (!sub.cancel_at_period_end) } := by
  unfold getStatusHandler
  rw [hf]
  simp only [statusWriteFlag, includeExpiresFlag, computedStatus, statusRowUpdate,
    resolveExpiresAt]
  simp only [hid, hbeq]
  rfl

/-- C10.  The active-status paths never clear a stored expiry.  On the
status-poll active branch the row keeps its `subscription_expires_at`
whenever the resolved expiry is unavailable, and in every case the new
value is either the old one or the available resolved expiry; the
webhook-update active branch satisfies the same frame property for every
row of the table. -/
theorem active_paths_preserve_expires (db : Store) (uid : String) (sub : Subscription)
    (p : Profile) (c : String) (cape : Bool) (cpe bca : Option Int)
    (hf : findById db uid = some p) (hid : optStrFalsy p.subscription_id = false)
    (hact : sub.status = "active") :
    (∃ q, findById (getStatusHandler db uid sub).db uid = some q ∧
      (q.subscription_expires_at = p.subscription_expires_at ∨
        (optStrFalsy (resolveExpiresAt sub.current_period_end sub.billing_cycle_anchor)
            = false ∧
          q.subscription_expires_at =
            resolveExpiresAt sub.current_period_end sub.billing_cycle_anchor))) ∧
    (resolveExpiresAt sub.current_period_end sub.billing_cycle_anchor = none →
      ∃ q, findById (getStatusHandler db uid sub).db uid = some q ∧
        q.subscription_expires_at = p.subscription_expires_at) ∧
    (∀ q ∈ (webhookHandler db (Except.ok
        (StripeEvent.subscriptionUpdated c "active" cape cpe bca))).db,
      ∃ r ∈ db, (q.subscription_expires_at = r.subscription_expires_at ∨
        (optStrFalsy (webhookExpiresAt cpe bca) = false ∧
          q.subscription_expires_at = webhookExpiresAt cpe bca))) := by
  have hbeq : (sub.status == "active") = true := by simp [hact]
  rw [getStatusHandler_active_shape db uid sub p hf hid hbeq]
  refine ⟨?_, ?_, ?_⟩
  · by_cases hw : statusWriteFlag sub p = true
    · refine ⟨statusRowUpdate sub p p, ?_, ?_⟩
      · simp only [hw, if_true]
        exact findById_updateById db uid (statusRowUpdate sub p) (fun q => rfl) p hf
      · by_cases hinc : includeExpiresFlag sub p = true
        · right
          refine ⟨?_, by simp [statusRowUpdate, hinc]⟩
          have h1 := hinc
          simp only [includeExpiresFlag, Bool.and_eq_true, Bool.not_eq_true'] at h1
          exact h1.1
        · left
          simp [statusRowUpdate, hinc]
    · rw [Bool.not_eq_true] at hw
      exact ⟨p, by simp [hw, hf], Or.inl rfl⟩
  · intro hea
    have hinc : includeExpiresFlag sub p = false := by
      simp [includeExpiresFlag, hea, optStrFalsy]
    by_cases hw : statusWriteFlag sub p = true
    · refine ⟨statusRowUpdate sub p p, ?_, ?_⟩
      · simp only [hw, if_true]
        exact findById_updateById db uid (statusRowUpdate sub p) (fun q => rfl) p hf
      · simp [statusRowUpdate, hinc]
    · rw [Bool.not_eq_true] at hw
      exact ⟨p, by simp [hw, hf], rfl⟩
  · intro q hq
    simp only [webhookHandler, beq_self_eq_true, if_true] at hq
    rcases mem_updateByCustomer db c _ q hq with ⟨r, hr, hqe⟩
    refine ⟨r, hr, ?_⟩
    by_cases hrc : r.stripe_customer_id == some c
    · rw [hqe, if_pos hrc]
      by_cases hea : optStrFalsy (webhookExpiresAt cpe bca) = true
      · left
        simp only [webhookExpiresAt] at hea
        simp [hea]
      · right
        rw [Bool.not_eq_true] at hea
        refine ⟨hea, ?_⟩
        simp only [webhookExpiresAt] at hea ⊢
        simp [hea]
    · rw [hqe, if_neg hrc]
      exact Or.inl rfl

/-- C10 — witness: a concrete active poll keeps or overwrites the stored
expiry (never clears it). -/
theorem active_paths_preserve_expires_witness :
    ∃ q, findById (getStatusHandler [profCTest] "u1" subCTest).db "u1" = some q ∧
      (q.subscription_expires_at = profCTest.subscription_expires_at ∨
        (optStrFalsy (resolveExpiresAt subCTest.current_period_end
            subCTest.billing_cycle_anchor) = false ∧
          q.subscription_expires_at =
            resolveExpiresAt subCTest.current_period_end subCTest.billing_cycle_anchor)) :=
  (active_paths_preserve_expires [profCTest] "u1" subCTest profCTest "cus_1" false
    (some 1700000000) none rfl rfl rfl).1

end CaffeineTracker
